import Mathlib

/-
Verification of `codex-rs/mcp-types/check_lib_rs.py`: a launcher that finds a
Python interpreter satisfying a minimum version, then delegates
`generate_mcp_types.py --check` to it and forwards the child's exit status.

The environment (running interpreter version and path, search-path lookup,
process spawning) is modelled as explicit capability fields of `Env`/`MainEnv`;
the launcher's control flow is translated line by line from the source.
Process spawns are recorded in traces so that claims about which processes are
spawned (and how many) can be stated.
-/

namespace CheckLibRs

/-- Python compares version tuples lexicographically; `verLE a b` decides
`a <= b` on (major, minor) pairs, matching `sys.version_info >= MIN_VERSION`. -/
def verLE (a b : Nat × Nat) : Bool :=
  decide (a.1 < b.1 ∨ (a.1 = b.1 ∧ a.2 ≤ b.2))

/-- `MIN_VERSION = (3, 10)` from the source. -/
def MIN_VERSION : Nat × Nat := (3, 10)

/-- The fixed candidate tuple iterated by `python_for_generator`. -/
def CANDIDATES : List String :=
  ["python3.12", "python3.11", "python3.10", "python3"]

/-- The inline probe program passed to each candidate via `-c`. -/
def inlineCheck : String := "import sys; exit(0 if sys.version_info >= (3, 10) else 1)"

/-- The argv of a probe: `[path, "-c", inlineCheck]`. -/
def probeCmd (path : String) : List String := [path, "-c", inlineCheck]

/-- The `RuntimeError` message raised when no candidate qualifies (verbatim
from the source, where it is written as two adjacent string literals). -/
def noInterpMsg : String :=
  "Python 3.10+ is required to generate MCP types. Install Python 3.10 or newer and ensure it is discoverable as python3."

/-- Errors that can escape `python_for_generator`: the explicit `RuntimeError`,
or an exception from `subprocess.run` when a probe fails to spawn
(`check=False` only suppresses nonzero exit codes, not spawn exceptions). -/
inductive PyError where
  | runtimeError (msg : String)
  | spawnError (msg : String)
deriving DecidableEq, Repr

instance : DecidableEq (Except PyError String) := fun a b =>
  match a, b with
  | .ok x, .ok y =>
    if h : x = y then .isTrue (by rw [h]) else .isFalse (by intro hc; injection hc; contradiction)
  | .error x, .error y =>
    if h : x = y then .isTrue (by rw [h]) else .isFalse (by intro hc; injection hc; contradiction)
  | .ok _, .error _ => .isFalse (fun hc => Except.noConfusion hc)
  | .error _, .ok _ => .isFalse (fun hc => Except.noConfusion hc)

/-- The process environment the launcher runs in:
`versionInfo`/`executable` are `sys.version_info` (major, minor) and
`sys.executable`; `which` is `shutil.which`; `run` spawns an argv and yields
either a spawn exception or the child's exit code; `pathVersion` is the
(ghost) actual version of the interpreter at a given path, used to state
honesty of probes. -/
structure Env where
  versionInfo : Nat × Nat
  executable : String
  which : String → Option String
  run : List String → Except String Int
  pathVersion : String → Nat × Nat

/-- `version_ok` from the source: `sys.version_info >= MIN_VERSION`. -/
def version_ok (env : Env) : Bool := verLE MIN_VERSION env.versionInfo

/-- Trace of the resolver: candidate names looked up with `which`, and paths
on which a probe spawn was attempted, in order. -/
structure Trace where
  lookups : List String
  probes : List String
deriving DecidableEq, Repr

/-- The `for candidate in (...)` loop of `python_for_generator`, with its
trace. A `which` miss or a hit equal to `""`/`sys.executable` is skipped
(`if not path or path == sys.executable: continue`); otherwise the candidate
is probed: a spawn exception propagates, exit code 0 returns the path, and a
nonzero exit falls through to the next candidate. The empty list raises the
`RuntimeError`. -/
def candidateLoop (env : Env) : List String → Except PyError String × Trace
  | [] => (.error (.runtimeError noInterpMsg), ⟨[], []⟩)
  | c :: rest =>
    match env.which c with
    | none =>
      ((candidateLoop env rest).1,
       ⟨c :: (candidateLoop env rest).2.lookups, (candidateLoop env rest).2.probes⟩)
    | some path =>
      if path = "" ∨ path = env.executable then
        ((candidateLoop env rest).1,
         ⟨c :: (candidateLoop env rest).2.lookups, (candidateLoop env rest).2.probes⟩)
      else
        match env.run (probeCmd path) with
        | .error e => (.error (.spawnError e), ⟨[c], [path]⟩)
        | .ok rc =>
          if rc = 0 then (.ok path, ⟨[c], [path]⟩)
          else
            ((candidateLoop env rest).1,
             ⟨c :: (candidateLoop env rest).2.lookups, path :: (candidateLoop env rest).2.probes⟩)

/-- `python_for_generator` from the source, instrumented with its trace:
the fast path returns `sys.executable` with no lookup and no probe; otherwise
the candidate loop runs. -/
def python_for_generator (env : Env) : Except PyError String × Trace :=
  if version_ok env then (.ok env.executable, ⟨[], []⟩)
  else candidateLoop env CANDIDATES

/-- A record of one generator spawn: its argv and working directory. -/
structure Spawn where
  argv : List String
  cwd : String
deriving DecidableEq, Repr

/-- `main`'s extra environment: `crateDir` is `Path(__file__).resolve().parent`
and `runIn argv cwd` is the exit code of `subprocess.run(argv, cwd=cwd)`. -/
structure MainEnv extends Env where
  crateDir : String
  runIn : List String → String → Int

/-- `crate_dir / "generate_mcp_types.py"` as a string. -/
def generatorPath (env : MainEnv) : String := env.crateDir ++ "/generate_mcp_types.py"

/-- The generator argv built by `main`: `[python_exe, str(generator), "--check"]`. -/
def genArgv (env : MainEnv) (py : String) : List String :=
  [py, generatorPath env, "--check"]

/-- `main` from the source, instrumented with the list of generator spawns:
resolve the interpreter (an exception propagates, spawning nothing), then
spawn the generator with `cwd = crate_dir` and return its exit code. -/
def main_tr (env : MainEnv) : Except PyError Int × List Spawn :=
  match (python_for_generator env.toEnv).1 with
  | .error e => (.error e, [])
  | .ok py =>
    (.ok (env.runIn (genArgv env py) env.crateDir), [⟨genArgv env py, env.crateDir⟩])

/-- `main`'s return value (or the exception that escaped it). -/
def main (env : MainEnv) : Except PyError Int :=
  (main_tr env).1

/-- The operating-system exit status of `raise SystemExit(main())`: the
returned code truncated to a byte by the OS, or 1 for an uncaught exception. -/
def exitStatus (env : MainEnv) : Int :=
  match main env with
  | .ok rc => rc % 256
  | .error _ => 1

/-- Candidate `c` qualifies: `which` resolves it to a non-empty path distinct
from the running interpreter, and its probe exits 0. -/
def qualifyingCand (env : Env) (c : String) : Prop :=
  ∃ p, env.which c = some p ∧ ¬(p = "" ∨ p = env.executable) ∧
    env.run (probeCmd p) = .ok 0

/-- Candidate `c` fails benignly: whenever it resolves to a probeable path,
the probe returns a normal nonzero exit code (it does not fail to spawn). -/
def benignFail (env : Env) (c : String) : Prop :=
  ∀ p, env.which c = some p → ¬(p = "" ∨ p = env.executable) →
    ∃ rc, env.run (probeCmd p) = .ok rc ∧ rc ≠ 0

/-- The probe capability is honest: the running interpreter's path carries its
own version, and a probe exiting 0 really means the interpreter at that path
meets `MIN_VERSION` (the meaning of `inlineCheck`). -/
def Env.honest (env : Env) : Prop :=
  env.pathVersion env.executable = env.versionInfo ∧
  ∀ p, env.run (probeCmd p) = .ok 0 → verLE MIN_VERSION (env.pathVersion p) = true

/-- Total processes spawned in one invocation: probe attempts plus generator
spawns. -/
def totalSpawns (env : MainEnv) : Nat :=
  (python_for_generator env.toEnv).2.probes.length + (main_tr env).2.length

/-! ### Concrete environments used by witnesses and counterexamples -/

/-- Lookup for `w4env`: only `python3.11` resolves. -/
def whichW4 (c : String) : Option String :=
  if c = "python3.11" then some "/usr/bin/python3.11" else none

/-- Spawner for `w4env`: the interpreter at `/usr/bin/python3.11` passes the
probe (exit 0); anything else exits 1. -/
def runW4 (argv : List String) : Except String Int :=
  if argv.head? = some "/usr/bin/python3.11" then .ok 0 else .ok 1

/-- Ghost versions: `/usr/bin/python3.11` is a 3.11, everything else a 3.9. -/
def pvW4 (p : String) : Nat × Nat :=
  if p = "/usr/bin/python3.11" then (3, 11) else (3, 9)

/-- An outdated (3.9) running interpreter with a qualifying `python3.11` on
the search path. -/
def w4env : Env :=
  { versionInfo := (3, 9), executable := "/usr/bin/python3.9",
    which := whichW4, run := runW4, pathVersion := pvW4 }

/-- `w4env` extended for `main`: the generator child exits 7. -/
def wMainEnv : MainEnv :=
  { toEnv := w4env, crateDir := "/repo/codex-rs/mcp-types", runIn := fun _ _ => 7 }

/-- `w4env` extended for `main` with a generator child exiting 2, the code a
Python interpreter returns when it cannot open the script file. -/
def wMissEnv : MainEnv :=
  { toEnv := w4env, crateDir := "/repo/codex-rs/mcp-types", runIn := fun _ _ => 2 }

/-- Lookup with both `python3.12` and `python3.11` present. -/
def whichTwo (c : String) : Option String :=
  if c = "python3.12" then some "/usr/bin/python3.12"
  else if c = "python3.11" then some "/usr/bin/python3.11" else none

/-- Spawner where the probe of `/usr/bin/python3.12` fails to spawn (e.g. the
file on the path is not actually executable as an interpreter), while
`/usr/bin/python3.11` passes the probe. -/
def runSF (argv : List String) : Except String Int :=
  if argv.head? = some "/usr/bin/python3.12" then .error "Exec format error"
  else if argv.head? = some "/usr/bin/python3.11" then .ok 0
  else .ok 1

/-- Outdated running interpreter; the first resolvable candidate's probe
fails to spawn while the second would qualify. -/
def envSF : Env :=
  { versionInfo := (3, 9), executable := "/usr/bin/python3.9",
    which := whichTwo, run := runSF, pathVersion := pvW4 }

/-- Spawner where `/usr/bin/python3.12` probes as too old (exit 1) and
`/usr/bin/python3.11` qualifies. -/
def run9 (argv : List String) : Except String Int :=
  if argv.head? = some "/usr/bin/python3.11" then .ok 0 else .ok 1

/-- Outdated running interpreter; two probes run (the first fails, the second
qualifies), then the generator is spawned: three processes in total. -/
def cenv9 : MainEnv :=
  { versionInfo := (3, 9), executable := "/usr/bin/python3.9",
    which := whichTwo, run := run9, pathVersion := fun _ => (3, 9),
    crateDir := "/repo/codex-rs/mcp-types", runIn := fun _ _ => 0 }

/-- A current (3.11) running interpreter: the fast path applies. -/
def envOK : Env :=
  { versionInfo := (3, 11), executable := "/usr/bin/python3.11",
    which := fun _ => none, run := fun _ => .ok 1, pathVersion := fun _ => (3, 11) }

/-- An outdated (3.8) running interpreter with no candidates on the search
path at all. -/
def wNoneEnv : Env :=
  { versionInfo := (3, 8), executable := "/usr/bin/python3.8",
    which := fun _ => none, run := fun _ => .ok 1, pathVersion := fun _ => (3, 8) }

/-- Lookup where `python3.12` resolves to the running interpreter itself and
`python3.11` to a distinct path. -/
def whichW7 (c : String) : Option String :=
  if c = "python3.12" then some "/usr/bin/python3.9"
  else if c = "python3.11" then some "/usr/bin/python3.11" else none

/-- Outdated running interpreter whose own path is also what `python3.12`
resolves to. -/
def w7env : Env :=
  { versionInfo := (3, 9), executable := "/usr/bin/python3.9",
    which := whichW7, run := runW4, pathVersion := pvW4 }

/-! ### Branch unfolding lemmas for the candidate loop -/

lemma candidateLoop_cons_none (env : Env) (c : String) (rest : List String)
    (hw : env.which c = none) :
    candidateLoop env (c :: rest) =
      ((candidateLoop env rest).1,
       ⟨c :: (candidateLoop env rest).2.lookups, (candidateLoop env rest).2.probes⟩) := by
  simp only [candidateLoop, hw]

lemma candidateLoop_cons_skip (env : Env) (c path : String) (rest : List String)
    (hw : env.which c = some path) (hs : path = "" ∨ path = env.executable) :
    candidateLoop env (c :: rest) =
      ((candidateLoop env rest).1,
       ⟨c :: (candidateLoop env rest).2.lookups, (candidateLoop env rest).2.probes⟩) := by
  simp only [candidateLoop, hw]
  rw [if_pos hs]

lemma candidateLoop_cons_spawnErr (env : Env) (c path e : String) (rest : List String)
    (hw : env.which c = some path) (hs : ¬(path = "" ∨ path = env.executable))
    (hr : env.run (probeCmd path) = .error e) :
    candidateLoop env (c :: rest) = (.error (.spawnError e), ⟨[c], [path]⟩) := by
  simp only [candidateLoop, hw, hr]
  rw [if_neg hs]

lemma candidateLoop_cons_hit (env : Env) (c path : String) (rest : List String)
    (hw : env.which c = some path) (hs : ¬(path = "" ∨ path = env.executable))
    (hr : env.run (probeCmd path) = .ok 0) :
    candidateLoop env (c :: rest) = (.ok path, ⟨[c], [path]⟩) := by
  simp only [candidateLoop, hw, hr]
  rw [if_neg hs]
  simp

lemma candidateLoop_cons_miss (env : Env) (c path : String) (rc : Int) (rest : List String)
    (hw : env.which c = some path) (hs : ¬(path = "" ∨ path = env.executable))
    (hr : env.run (probeCmd path) = .ok rc) (hrc : rc ≠ 0) :
    candidateLoop env (c :: rest) =
      ((candidateLoop env rest).1,
       ⟨c :: (candidateLoop env rest).2.lookups, path :: (candidateLoop env rest).2.probes⟩) := by
  simp only [candidateLoop, hw, hr]
  rw [if_neg hs, if_neg hrc]

/-! ### Structural lemmas about resolution -/

lemma candidateLoop_ok_spec (env : Env) :
    ∀ l p, (candidateLoop env l).1 = .ok p →
      ¬(p = "" ∨ p = env.executable) ∧ env.run (probeCmd p) = .ok 0 := by
  intro l
  induction l with
  | nil => intro p h; exact Except.noConfusion h
  | cons c rest ih =>
    intro p h
    cases hw : env.which c with
    | none =>
      rw [candidateLoop_cons_none env c rest hw] at h
      exact ih p h
    | some path =>
      by_cases hs : path = "" ∨ path = env.executable
      · rw [candidateLoop_cons_skip env c path rest hw hs] at h
        exact ih p h
      · cases hr : env.run (probeCmd path) with
        | error e =>
          rw [candidateLoop_cons_spawnErr env c path e rest hw hs hr] at h
          exact Except.noConfusion h
        | ok rc =>
          by_cases hrc : rc = 0
          · subst hrc
            rw [candidateLoop_cons_hit env c path rest hw hs hr] at h
            have hp : path = p := by injection h
            subst hp
            exact ⟨hs, hr⟩
          · rw [candidateLoop_cons_miss env c path rc rest hw hs hr hrc] at h
            exact ih p h

lemma candidateLoop_probes_spec (env : Env) :
    ∀ l, ∀ p ∈ (candidateLoop env l).2.probes,
      ¬(p = "" ∨ p = env.executable) := by
  intro l
  induction l with
  | nil => intro p h; exact absurd h (List.not_mem_nil p)
  | cons c rest ih =>
    intro p h
    cases hw : env.which c with
    | none =>
      rw [candidateLoop_cons_none env c rest hw] at h
      exact ih p h
    | some path =>
      by_cases hs : path = "" ∨ path = env.executable
      · rw [candidateLoop_cons_skip env c path rest hw hs] at h
        exact ih p h
      · cases hr : env.run (probeCmd path) with
        | error e =>
          rw [candidateLoop_cons_spawnErr env c path e rest hw hs hr] at h
          rw [List.mem_singleton] at h
          subst h
          exact hs
        | ok rc =>
          by_cases hrc : rc = 0
          · subst hrc
            rw [candidateLoop_cons_hit env c path rest hw hs hr] at h
            rw [List.mem_singleton] at h
            subst h
            exact hs
          · rw [candidateLoop_cons_miss env c path rc rest hw hs hr hrc] at h
            rw [List.mem_cons] at h
            rcases h with h | h
            · subst h; exact hs
            · exact ih p h

lemma candidateLoop_probes_len (env : Env) :
    ∀ l, (candidateLoop env l).2.probes.length ≤ l.length := by
  intro l
  induction l with
  | nil => simp [candidateLoop]
  | cons c rest ih =>
    cases hw : env.which c with
    | none =>
      rw [candidateLoop_cons_none env c rest hw]
      exact le_trans ih (Nat.le_succ _)
    | some path =>
      by_cases hs : path = "" ∨ path = env.executable
      · rw [candidateLoop_cons_skip env c path rest hw hs]
        exact le_trans ih (Nat.le_succ _)
      · cases hr : env.run (probeCmd path) with
        | error e =>
          rw [candidateLoop_cons_spawnErr env c path e rest hw hs hr]
          simp
        | ok rc =>
          by_cases hrc : rc = 0
          · subst hrc
            rw [candidateLoop_cons_hit env c path rest hw hs hr]
            simp
          · rw [candidateLoop_cons_miss env c path rc rest hw hs hr hrc]
            simpa using Nat.succ_le_succ ih

lemma candidateLoop_error_of_none (env : Env) :
    ∀ l, (∀ c ∈ l, ¬qualifyingCand env c) →
      ∃ e, (candidateLoop env l).1 = .error e := by
  intro l
  induction l with
  | nil => intro _; exact ⟨.runtimeError noInterpMsg, rfl⟩
  | cons c rest ih =>
    intro hall
    have hrest : ∀ x ∈ rest, ¬qualifyingCand env x :=
      fun x hx => hall x (List.mem_cons_of_mem _ hx)
    cases hw : env.which c with
    | none =>
      rw [candidateLoop_cons_none env c rest hw]
      exact ih hrest
    | some path =>
      by_cases hs : path = "" ∨ path = env.executable
      · rw [candidateLoop_cons_skip env c path rest hw hs]
        exact ih hrest
      · cases hr : env.run (probeCmd path) with
        | error e =>
          rw [candidateLoop_cons_spawnErr env c path e rest hw hs hr]
          exact ⟨.spawnError e, rfl⟩
        | ok rc =>
          by_cases hrc : rc = 0
          · subst hrc
            exact absurd ⟨path, hw, hs, hr⟩ (hall c (List.mem_cons_self _ _))
          · rw [candidateLoop_cons_miss env c path rc rest hw hs hr hrc]
            exact ih hrest

lemma candidateLoop_append_benign (env : Env) :
    ∀ l1 r, (∀ c ∈ l1, benignFail env c) →
      (candidateLoop env (l1 ++ r)).1 = (candidateLoop env r).1 := by
  intro l1
  induction l1 with
  | nil => intro r _; rfl
  | cons c rest ih =>
    intro r hall
    have hrest : ∀ x ∈ rest, benignFail env x :=
      fun x hx => hall x (List.mem_cons_of_mem _ hx)
    have hc : benignFail env c := hall c (List.mem_cons_self _ _)
    rw [List.cons_append]
    cases hw : env.which c with
    | none =>
      rw [candidateLoop_cons_none env c (rest ++ r) hw]
      exact ih r hrest
    | some path =>
      by_cases hs : path = "" ∨ path = env.executable
      · rw [candidateLoop_cons_skip env c path (rest ++ r) hw hs]
        exact ih r hrest
      · obtain ⟨rc, hr, hrc⟩ := hc path hw hs
        rw [candidateLoop_cons_miss env c path rc (rest ++ r) hw hs hr hrc]
        exact ih r hrest

lemma python_for_generator_ok (env : Env) (p : String)
    (h : (python_for_generator env).1 = .ok p) :
    (version_ok env = true ∧ p = env.executable) ∨
      (¬(p = "" ∨ p = env.executable) ∧ env.run (probeCmd p) = .ok 0) := by
  by_cases hv : version_ok env
  · left
    refine ⟨hv, ?_⟩
    rw [python_for_generator, if_pos hv] at h
    injection h with h2
    exact h2.symm
  · right
    rw [python_for_generator, if_neg hv] at h
    exact candidateLoop_ok_spec env CANDIDATES p h

lemma main_tr_error (env : MainEnv) (e : PyError)
    (h : (python_for_generator env.toEnv).1 = .error e) :
    main_tr env = (.error e, []) := by
  simp only [main_tr, h]

lemma main_tr_ok (env : MainEnv) (py : String)
    (h : (python_for_generator env.toEnv).1 = .ok py) :
    main_tr env = (.ok (env.runIn (genArgv env py) env.crateDir),
                   [⟨genArgv env py, env.crateDir⟩]) := by
  simp only [main_tr, h]

lemma honestW4 : Env.honest w4env := by
  constructor
  · rfl
  · intro p h
    by_cases hp : p = "/usr/bin/python3.11"
    · subst hp
      decide
    · exfalso
      have hr : runW4 (probeCmd p) = .ok 1 := by
        simp [runW4, probeCmd, hp]
      have h2 : runW4 (probeCmd p) = Except.ok 0 := h
      rw [hr] at h2
      injection h2 with h3
      exact absurd h3 (by decide)

/-! ### Claim theorems -/

/-- Claim C1: for every generator child exit code in [0, 255], the whole
system's exit status equals exactly that code — `main` returns the child's
`returncode` verbatim and `raise SystemExit(main())` surfaces it unchanged
(byte-range codes are not truncated or remapped). -/
theorem exit_forwarded (env : MainEnv) (c : Int) (h : main env = .ok c)
    (h0 : 0 ≤ c) (h255 : c ≤ 255) : exitStatus env = c := by
  simp only [exitStatus, h]
  omega

/-- Witness for C1: a concrete environment whose generator child exits 7, and
the system exit status is 7. -/
theorem exit_forwarded_witness :
    main wMainEnv = .ok 7 ∧ (0 : Int) ≤ 7 ∧ (7 : Int) ≤ 255 ∧ exitStatus wMainEnv = 7 :=
  ⟨rfl, by decide, by decide, exit_forwarded wMainEnv 7 rfl (by decide) (by decide)⟩

/-- Counterexample to C2 as stated: in `envSF` the running interpreter is
outdated and `python3.11` resolves to a distinct path whose probe passes, yet
`python_for_generator` does not return it — the earlier candidate
`python3.12` resolves as well and its probe fails to spawn, and
`subprocess.run(check=False)` does not suppress spawn exceptions, so the
exception propagates instead of resolution continuing. -/
theorem first_qualifying_counterexample :
    version_ok envSF = false ∧
    qualifyingCand envSF "python3.11" ∧
    (python_for_generator envSF).1 ≠ .ok "/usr/bin/python3.11" :=
  ⟨rfl, ⟨"/usr/bin/python3.11", rfl, by decide, rfl⟩, by decide⟩

/-- Claim C2 (amended): when the running interpreter is outdated, some
candidate resolves to a distinct path whose probe exits 0, and every
earlier-listed candidate either is skipped or has its probe return a normal
nonzero exit code (no earlier probe fails to spawn), `python_for_generator`
returns that first qualifying candidate's path, never a later-listed one. -/
theorem first_qualifying_returned (env : Env) (l1 l2 : List String) (c p : String)
    (hv : version_ok env = false)
    (hsplit : CANDIDATES = l1 ++ c :: l2)
    (hwc : env.which c = some p)
    (hne : ¬(p = "" ∨ p = env.executable))
    (hp0 : env.run (probeCmd p) = .ok 0)
    (hearly : ∀ x ∈ l1, benignFail env x) :
    (python_for_generator env).1 = .ok p := by
  rw [python_for_generator, if_neg (by simp [hv]), hsplit,
    candidateLoop_append_benign env l1 (c :: l2) hearly,
    candidateLoop_cons_hit env c p l2 hwc hne hp0]

/-- Witness for the amended C2: `python3.12` is absent, `python3.11` is the
first qualifying candidate and is returned. -/
theorem first_qualifying_returned_witness :
    version_ok w4env = false ∧ (python_for_generator w4env).1 = .ok "/usr/bin/python3.11" :=
  ⟨rfl, first_qualifying_returned w4env ["python3.12"] ["python3.10", "python3"]
    "python3.11" "/usr/bin/python3.11" rfl rfl rfl (by decide) rfl
    (fun x hx p hp _ => by
      rw [List.mem_singleton] at hx
      subst hx
      exact absurd hp (by simp [w4env, whichW4]))⟩

/-- Claim C3: when the running interpreter already meets `MIN_VERSION`,
`python_for_generator` returns `sys.executable` with an empty trace — no
search-path lookup and no probe spawn occurs. -/
theorem resolver_fast_path (env : Env) (h : version_ok env = true) :
    python_for_generator env = (.ok env.executable, ⟨[], []⟩) := by
  rw [python_for_generator, if_pos h]

/-- Witness for C3: a 3.11 running interpreter takes the fast path with an
empty trace. -/
theorem resolver_fast_path_witness :
    version_ok envOK = true ∧
    python_for_generator envOK = (.ok "/usr/bin/python3.11", ⟨[], []⟩) :=
  ⟨rfl, resolver_fast_path envOK rfl⟩

/-- Claim C4: with an honest probe capability, every generator spawn uses an
interpreter satisfying `MIN_VERSION`; and when the running interpreter is
outdated and no candidate qualifies, `main` fails with an error, spawns no
generator process, and the process exits with the fatal status 1. -/
theorem resolved_interpreter_qualifies (env : MainEnv) (hh : Env.honest env.toEnv) :
    (∀ s ∈ (main_tr env).2, ∃ py, s = ⟨genArgv env py, env.crateDir⟩ ∧
        verLE MIN_VERSION (env.pathVersion py) = true) ∧
    ((version_ok env.toEnv = false ∧ ∀ c ∈ CANDIDATES, ¬qualifyingCand env.toEnv c) →
        (∃ e, main env = .error e) ∧ (main_tr env).2 = [] ∧ exitStatus env = 1) := by
  constructor
  · intro s hs
    cases hres : (python_for_generator env.toEnv).1 with
    | error e =>
      rw [main_tr_error env e hres] at hs
      exact absurd hs (List.not_mem_nil s)
    | ok py =>
      rw [main_tr_ok env py hres] at hs
      rw [List.mem_singleton] at hs
      subst hs
      refine ⟨py, rfl, ?_⟩
      rcases python_for_generator_ok env.toEnv py hres with ⟨hv, hpe⟩ | ⟨_, hrun⟩
      · subst hpe
        rw [hh.1]
        exact hv
      · exact hh.2 py hrun
  · rintro ⟨hv, hnq⟩
    obtain ⟨e, he⟩ := candidateLoop_error_of_none env.toEnv CANDIDATES hnq
    have hres : (python_for_generator env.toEnv).1 = .error e := by
      rw [python_for_generator, if_neg (by simp [hv])]
      exact he
    have hm : main env = .error e := by rw [main, main_tr_error env e hres]
    refine ⟨⟨e, hm⟩, by rw [main_tr_error env e hres], ?_⟩
    simp [exitStatus, hm]

/-- Witness for C4: in `wMainEnv` the probe is honest and the single
generator spawn uses the qualifying `/usr/bin/python3.11`. -/
theorem resolved_interpreter_qualifies_witness :
    Env.honest wMainEnv.toEnv ∧
    ∀ s ∈ (main_tr wMainEnv).2, ∃ py, s = ⟨genArgv wMainEnv py, wMainEnv.crateDir⟩ ∧
      verLE MIN_VERSION (wMainEnv.pathVersion py) = true :=
  ⟨honestW4, (resolved_interpreter_qualifies wMainEnv honestW4).1⟩

/-- Claim C5: with an outdated running interpreter and every candidate either
skipped or probing nonzero, the exhausted loop raises the `RuntimeError`
whose message names the 3.10 minimum and instructs installing an interpreter
discoverable as `python3` (the message contains both "3.10" and "python3"). -/
theorem exhausted_error (env : Env)
    (hv : version_ok env = false)
    (hall : ∀ c ∈ CANDIDATES, benignFail env c) :
    (python_for_generator env).1 = .error (.runtimeError noInterpMsg) ∧
    (∃ a b, noInterpMsg = a ++ "3.10" ++ b) ∧
    (∃ a b, noInterpMsg = a ++ "python3" ++ b) := by
  refine ⟨?_,
    ⟨"Python ", "+ is required to generate MCP types. Install Python 3.10 or newer and ensure it is discoverable as python3.", rfl⟩,
    ⟨"Python 3.10+ is required to generate MCP types. Install Python 3.10 or newer and ensure it is discoverable as ", ".", rfl⟩⟩
  rw [python_for_generator, if_neg (by simp [hv])]
  have hskip := candidateLoop_append_benign env CANDIDATES [] hall
  rw [List.append_nil] at hskip
  rw [hskip]
  rfl

/-- Witness for C5: a 3.8 interpreter with no candidate on the search path
raises the `RuntimeError` with the exact message. -/
theorem exhausted_error_witness :
    version_ok wNoneEnv = false ∧
    (python_for_generator wNoneEnv).1 = .error (.runtimeError noInterpMsg) :=
  ⟨rfl, (exhausted_error wNoneEnv rfl (fun _ _ _ hp _ => Option.noConfusion hp)).1⟩

/-- Counterexample to C6 as stated: in `envSF` the probe of the resolved
candidate `python3.12` fails to spawn, and this per-candidate failure IS
surfaced as the top-level error of `python_for_generator` — resolution does
not continue to `python3.11`, whose probe would have passed (only this one
probe was attempted). -/
theorem probe_failure_counterexample :
    version_ok envSF = false ∧
    (python_for_generator envSF).1 = .error (.spawnError "Exec format error") ∧
    envSF.run (probeCmd "/usr/bin/python3.11") = .ok 0 ∧
    (python_for_generator envSF).2.probes = ["/usr/bin/python3.12"] :=
  ⟨rfl, rfl, rfl, rfl⟩

/-- Claim C6 (amended): a probe that exits nonzero is recovered locally —
the candidate is treated as not qualifying and the loop's outcome is exactly
that of the remaining candidates — but a probe that fails to spawn is not
recovered: `check=False` only suppresses nonzero exit codes, so the spawn
exception propagates as the top-level error of `python_for_generator`. -/
theorem probe_failure_handling (env : Env) (c p : String) (rest : List String)
    (hw : env.which c = some p) (hne : ¬(p = "" ∨ p = env.executable)) :
    (∀ rc, env.run (probeCmd p) = .ok rc → rc ≠ 0 →
        (candidateLoop env (c :: rest)).1 = (candidateLoop env rest).1 ∧
        p ∈ (candidateLoop env (c :: rest)).2.probes) ∧
    (∀ e, env.run (probeCmd p) = .error e →
        (candidateLoop env (c :: rest)).1 = .error (.spawnError e)) := by
  constructor
  · intro rc hr hrc
    rw [candidateLoop_cons_miss env c p rc rest hw hne hr hrc]
    exact ⟨rfl, List.mem_cons_self _ _⟩
  · intro e hr
    rw [candidateLoop_cons_spawnErr env c p e rest hw hne hr]

/-- Witness for the amended C6: the spawn failure of `python3.12`'s probe in
`envSF` propagates out of the loop. -/
theorem probe_failure_handling_witness :
    (candidateLoop envSF ("python3.12" :: ["python3.11"])).1 =
      .error (.spawnError "Exec format error") :=
  (probe_failure_handling envSF "python3.12" "/usr/bin/python3.12" ["python3.11"]
      rfl (by decide)).2 "Exec format error" rfl

/-- Claim C7: when the running interpreter is outdated, its own path is never
probed (any candidate resolving to it is skipped before the probe) and is
never the value returned by `python_for_generator`. -/
theorem self_never_probed (env : Env) (h : version_ok env = false) :
    env.executable ∉ (python_for_generator env).2.probes ∧
      ∀ p, (python_for_generator env).1 = .ok p → p ≠ env.executable := by
  have hv : ¬ version_ok env = true := by simp [h]
  constructor
  · intro hmem
    rw [python_for_generator, if_neg hv] at hmem
    exact (candidateLoop_probes_spec env CANDIDATES _ hmem) (Or.inr rfl)
  · intro p hp hpe
    rw [python_for_generator, if_neg hv] at hp
    exact (candidateLoop_ok_spec env CANDIDATES p hp).1 (Or.inr hpe)

/-- Witness for C7: in `w7env`, `python3.12` resolves to the running
interpreter's own path; that path is never probed and never returned. -/
theorem self_never_probed_witness :
    version_ok w7env = false ∧
    ("/usr/bin/python3.9" ∉ (python_for_generator w7env).2.probes ∧
      ∀ p, (python_for_generator w7env).1 = .ok p → p ≠ "/usr/bin/python3.9") :=
  ⟨rfl, self_never_probed w7env rfl⟩

/-- Claim C8: for every resolved interpreter `p`, `main` spawns exactly the
command line `[p, crate_dir ++ "/generate_mcp_types.py", "--check"]` (the
script path resolved against the tool's own directory) with working directory
`crate_dir`, and returns the child's exit code. -/
theorem dispatcher_invocation (env : MainEnv) (p : String)
    (h : (python_for_generator env.toEnv).1 = .ok p) :
    main_tr env =
      (.ok (env.runIn [p, env.crateDir ++ "/generate_mcp_types.py", "--check"] env.crateDir),
       [⟨[p, env.crateDir ++ "/generate_mcp_types.py", "--check"], env.crateDir⟩]) := by
  rw [main_tr_ok env p h]
  rfl

/-- Witness for C8: the single concrete generator spawn in `wMainEnv`. -/
theorem dispatcher_invocation_witness :
    (python_for_generator wMainEnv.toEnv).1 = .ok "/usr/bin/python3.11" ∧
    main_tr wMainEnv =
      (.ok 7, [⟨["/usr/bin/python3.11", "/repo/codex-rs/mcp-types/generate_mcp_types.py",
                 "--check"], "/repo/codex-rs/mcp-types"⟩]) :=
  ⟨rfl, dispatcher_invocation wMainEnv "/usr/bin/python3.11" rfl⟩

/-- Counterexample to C9 as stated: in `cenv9` two probe processes run (the
first candidate's probe exits nonzero, the second qualifies) and then the
generator is spawned, so three processes are spawned — the total is not
bounded by two. -/
theorem spawn_count_counterexample :
    (python_for_generator cenv9.toEnv).2.probes =
      ["/usr/bin/python3.12", "/usr/bin/python3.11"] ∧
    (main_tr cenv9).2.length = 1 ∧
    totalSpawns cenv9 = 3 ∧ ¬(totalSpawns cenv9 ≤ 2) :=
  ⟨rfl, rfl, rfl, by decide⟩

/-- Claim C9 (amended): probes are spawned one at a time in candidate order,
at most one per candidate (so at most `CANDIDATES.length = 4`), at most one
generator process is spawned, and the total number of spawned processes never
exceeds `CANDIDATES.length + 1 = 5`. -/
theorem spawn_bound (env : MainEnv) :
    (python_for_generator env.toEnv).2.probes.length ≤ CANDIDATES.length ∧
    (main_tr env).2.length ≤ 1 ∧
    totalSpawns env ≤ CANDIDATES.length + 1 := by
  have h1 : (python_for_generator env.toEnv).2.probes.length ≤ CANDIDATES.length := by
    by_cases hv : version_ok env.toEnv
    · rw [python_for_generator, if_pos hv]
      simp
    · rw [python_for_generator, if_neg hv]
      exact candidateLoop_probes_len env.toEnv CANDIDATES
  have h2 : (main_tr env).2.length ≤ 1 := by
    cases hres : (python_for_generator env.toEnv).1 with
    | error e => rw [main_tr_error env e hres]; simp
    | ok py => rw [main_tr_ok env py hres]; simp
  refine ⟨h1, h2, ?_⟩
  rw [totalSpawns]
  omega

/-- Claim C10: `main` contains no existence check for the generator script —
whenever resolution succeeds the generator is spawned on the computed path
unconditionally, and whatever the child returns (e.g. the interpreter's own
nonzero code for a missing script file) is forwarded as the system's exit
status like any other generator exit code, not raised as a distinct error. -/
theorem missing_script_forwarded (env : MainEnv) (p : String)
    (h : (python_for_generator env.toEnv).1 = .ok p) :
    (main_tr env).2 = [⟨genArgv env p, env.crateDir⟩] ∧
    main env = .ok (env.runIn (genArgv env p) env.crateDir) ∧
    exitStatus env = env.runIn (genArgv env p) env.crateDir % 256 := by
  have hm := main_tr_ok env p h
  have hmain : main env = .ok (env.runIn (genArgv env p) env.crateDir) := by
    rw [main, hm]
  refine ⟨by rw [hm], hmain, ?_⟩
  simp [exitStatus, hmain]

/-- Witness for C10: in `wMissEnv` the child exits 2 (the interpreter's code
for an unopenable script) and the system exit status is exactly 2. -/
theorem missing_script_forwarded_witness :
    (python_for_generator wMissEnv.toEnv).1 = .ok "/usr/bin/python3.11" ∧
    exitStatus wMissEnv = 2 :=
  ⟨rfl, ((missing_script_forwarded wMissEnv "/usr/bin/python3.11" rfl).2.2).trans (by decide)⟩

end CheckLibRs
